import Mathlib

/-!
Shallow embedding of the Model Lifecycle Reconciliation subsystem of
Silicon Studio, taken from `src/renderer/src/components/ModelsInterface.tsx`.

The component state (React `useState` hooks) becomes an explicit record.
Every remote call (`getModels`, `downloadModel`, `deleteModel`,
`registerModel`) is embedded by passing its outcome as a parameter of the
handler, so each handler is a pure state transformer.  Side effects that
leave the component (requests sent over the wire, the blocking `alert`)
are recorded in an event trace inside the state, so that statements such
as "no second remote request is issued" are expressible.  User-visible
entry points (button clicks) carry the render-time gates of the JSX:
a download button exists only for a stored, not-downloaded model and is
disabled while `isDownloading`; the register button is disabled on empty
name or path or while loading.
-/

namespace SiliconStudio

/-- One inventory record as returned by `apiClient.engine.getModels`
(fields read by `ModelsInterface`). -/
structure Model where
  id : String
  name : String
  family : Option String
  size : String
  is_custom : Bool
  downloaded : Bool
  downloading : Bool
deriving DecidableEq

/-- Outward-visible effects of the component: remote requests issued and
blocking alerts shown, recorded in order. -/
inductive Event where
  | listRequest (silent : Bool)
  | downloadRequest (modelId : String)
  | deleteRequest (modelId : String)
  | registerRequest (name path url : String)
  | alertShown (msg : String)
deriving DecidableEq

/-- The React state of `ModelsInterface` (lines 5-14 and 60), plus the
event trace. `downloading` is the optimistic overlay `Set<string>`,
kept as a duplicate-free list. -/
structure ComponentState where
  models : List Model
  loading : Bool
  downloading : List String
  error : Option String
  showAddModal : Bool
  customName : String
  customPath : String
  customUrl : String
  modelToDelete : Option Model
  events : List Event
deriving DecidableEq

/-- `new Set(prev).add(x)`: adding an element already present leaves the
set unchanged. -/
def setAdd (l : List String) (x : String) : List String :=
  if x ∈ l then l else l ++ [x]

/-- `next.delete(x)` on a duplicate-free list. -/
def setDelete (l : List String) (x : String) : List String :=
  l.filter (fun y => decide (y ≠ x))

/-- `fetchModels` (lines 20-30): toggles the primary loading flag only
when not silent, issues `getModels`, on success replaces the whole
inventory, on error records the message in the error banner state. -/
def fetchModels (silent : Bool) (outcome : Except String (List Model))
    (s : ComponentState) : ComponentState :=
  let s1 := if silent then s else { s with loading := true }
  let s2 := { s1 with events := s1.events ++ [Event.listRequest silent] }
  let s3 :=
    match outcome with
    | Except.ok data => { s2 with models := data }
    | Except.error msg => { s2 with error := some msg }
  if silent then s3 else { s3 with loading := false }

/-- `isDownloading` (line 124): per-model union of the local overlay and
the server-reported flag, driving the download button UI. -/
def isDownloading (s : ComponentState) (m : Model) : Bool :=
  decide (m.id ∈ s.downloading) || m.downloading

/-- `hasActiveDownloads` (line 34): the condition of the reconciliation
poller effect, `models.some(m => m.downloading) || downloading.size > 0`. -/
def hasActiveDownloads (s : ComponentState) : Bool :=
  s.models.any (fun m => m.downloading) || decide (0 < s.downloading.length)

/-- The poller effect (lines 33-42) re-runs on every change of `models`
or `downloading`; it schedules the 2-second repeating silent refresh
exactly when `hasActiveDownloads` holds and its cleanup cancels the
interval otherwise, so in any state the repeating refresh is scheduled
iff this predicate holds. -/
def pollerScheduled (s : ComponentState) : Bool :=
  hasActiveDownloads s

/-- Follows the wording of the spec for comparison (section 4.3 and the
testable properties): the polling trigger is "there is at least one
model whose effective downloading state is true", with the effective
state of `m` being `overlay.has(m.id) OR m.downloading`.  This is the
claimed condition, to be compared with `hasActiveDownloads`, the
condition the code computes. -/
def specPollCondition (s : ComponentState) : Bool :=
  s.models.any (fun m => isDownloading s m)

/-- `handleDownload` (lines 44-58): optimistically adds the id to the
overlay, issues `downloadModel`; on success triggers an immediate silent
refresh (whose own network outcome is `refreshOutcome`); on failure
shows a blocking alert and rolls the id back out of the overlay. -/
def handleDownload (modelId : String) (outcome : Except String Unit)
    (refreshOutcome : Except String (List Model))
    (s : ComponentState) : ComponentState :=
  let s1 := { s with downloading := setAdd s.downloading modelId }
  let s2 := { s1 with events := s1.events ++ [Event.downloadRequest modelId] }
  match outcome with
  | Except.ok _ => fetchModels true refreshOutcome s2
  | Except.error msg =>
    let s3 := { s2 with
      events := s2.events ++ [Event.alertShown ("Failed to start download: " ++ msg)] }
    { s3 with downloading := setDelete s3.downloading modelId }

/-- `handleDelete` (lines 62-74): no-op without a staged target; sets the
loading flag, issues `deleteModel` for the staged target, on success runs
a blocking non-silent refresh and clears the staged target, on failure
records the error and leaves the staged target set; finally clears the
loading flag. -/
def handleDelete (outcome : Except String Unit)
    (refreshOutcome : Except String (List Model))
    (s : ComponentState) : ComponentState :=
  match s.modelToDelete with
  | none => s
  | some target =>
    let s1 := { s with loading := true }
    let s2 := { s1 with events := s1.events ++ [Event.deleteRequest target.id] }
    match outcome with
    | Except.ok _ =>
      let s3 := fetchModels false refreshOutcome s2
      let s4 := { s3 with modelToDelete := none }
      { s4 with loading := false }
    | Except.error msg =>
      let s3 := { s2 with error := some msg }
      { s3 with loading := false }

/-- `handleRegister` (lines 76-91): returns immediately when name or path
is empty (no request sent, dialog untouched); otherwise issues
`registerModel`, on success runs a blocking non-silent refresh, closes
the dialog and clears the fields, on failure records the error and leaves
dialog and fields as they were; finally clears the loading flag. -/
def handleRegister (outcome : Except String Unit)
    (refreshOutcome : Except String (List Model))
    (s : ComponentState) : ComponentState :=
  if s.customName = "" ∨ s.customPath = "" then s
  else
    let s1 := { s with loading := true }
    let s2 := { s1 with
      events := s1.events ++ [Event.registerRequest s.customName s.customPath s.customUrl] }
    match outcome with
    | Except.ok _ =>
      let s3 := fetchModels false refreshOutcome s2
      let s4 := { s3 with showAddModal := false, customName := "", customPath := "",
                          customUrl := "" }
      { s4 with loading := false }
    | Except.error msg =>
      let s3 := { s2 with error := some msg }
      { s3 with loading := false }

/-- A user click on the download button of model `m` (lines 171-191): the
button is rendered only for a stored model that is not downloaded and is
disabled while `isDownloading`, so `handleDownload` runs only when the
gate passes. -/
def clickDownload (m : Model) (outcome : Except String Unit)
    (refreshOutcome : Except String (List Model))
    (s : ComponentState) : ComponentState :=
  if m ∈ s.models ∧ m.downloaded = false ∧ isDownloading s m = false then
    handleDownload m.id outcome refreshOutcome s
  else s

/-- A user click on the trash button of model `m` (line 162): rendered
only for a stored, downloaded model; stages the model for deletion. -/
def confirmDelete (m : Model) (s : ComponentState) : ComponentState :=
  if m ∈ s.models ∧ m.downloaded = true then { s with modelToDelete := some m }
  else s

/-- Cancel in the delete confirmation modal (line 211). -/
def cancelDelete (s : ComponentState) : ComponentState :=
  { s with modelToDelete := none }

/-- A user click on the register button (lines 291-297): rendered only
while the add modal is open and disabled on empty name, empty path, or
while loading. -/
def clickRegister (outcome : Except String Unit)
    (refreshOutcome : Except String (List Model))
    (s : ComponentState) : ComponentState :=
  if s.showAddModal = true ∧ ¬(s.customName = "" ∨ s.customPath = "" ∨ s.loading = true) then
    handleRegister outcome refreshOutcome s
  else s

/-- Open the add-model modal (line 101). -/
def openAddModal (s : ComponentState) : ComponentState :=
  { s with showAddModal := true }

/-- Cancel in the add-model modal (line 286). -/
def cancelAddModal (s : ComponentState) : ComponentState :=
  { s with showAddModal := false }

/-- Edit the name field (line 239); the input exists only while the modal
is open. -/
def editName (v : String) (s : ComponentState) : ComponentState :=
  if s.showAddModal then { s with customName := v } else s

/-- Set the path field from the directory picker (line 270). -/
def editPath (v : String) (s : ComponentState) : ComponentState :=
  if s.showAddModal then { s with customPath := v } else s

/-- Edit the reference URL field (line 250). -/
def editUrl (v : String) (s : ComponentState) : ComponentState :=
  if s.showAddModal then { s with customUrl := v } else s

/-- Dismiss the error banner (line 114). -/
def dismissError (s : ComponentState) : ComponentState :=
  { s with error := none }

/-- One atomic interaction with the component: a refresh completing with
some network outcome (mount fetch, poll tick, or a stray tick completing
after cancellation), or a gated user action whose remote calls complete
with the given outcomes. -/
inductive Op where
  | refresh (silent : Bool) (outcome : Except String (List Model))
  | download (m : Model) (outcome : Except String Unit)
      (refreshOutcome : Except String (List Model))
  | stageDelete (m : Model)
  | unstageDelete
  | commitDelete (outcome : Except String Unit)
      (refreshOutcome : Except String (List Model))
  | openModal
  | closeModal
  | setName (v : String)
  | setPath (v : String)
  | setUrl (v : String)
  | register (outcome : Except String Unit)
      (refreshOutcome : Except String (List Model))
  | clearError

/-- Interpretation of one interaction. -/
def applyOp (op : Op) (s : ComponentState) : ComponentState :=
  match op with
  | Op.refresh silent outcome => fetchModels silent outcome s
  | Op.download m outcome refreshOutcome => clickDownload m outcome refreshOutcome s
  | Op.stageDelete m => confirmDelete m s
  | Op.unstageDelete => cancelDelete s
  | Op.commitDelete outcome refreshOutcome => handleDelete outcome refreshOutcome s
  | Op.openModal => openAddModal s
  | Op.closeModal => cancelAddModal s
  | Op.setName v => editName v s
  | Op.setPath v => editPath v s
  | Op.setUrl v => editUrl v s
  | Op.register outcome refreshOutcome => clickRegister outcome refreshOutcome s
  | Op.clearError => dismissError s

/-- Run a sequence of interactions. -/
def run (ops : List Op) (s : ComponentState) : ComponentState :=
  ops.foldl (fun st op => applyOp op st) s

/-- The state at mount (all `useState` initial values). -/
def initialState : ComponentState :=
  { models := [], loading := false, downloading := [], error := none,
    showAddModal := false, customName := "", customPath := "", customUrl := "",
    modelToDelete := none, events := [] }

/-- A state is reachable when some interaction sequence leads to it from
the mount state. -/
def Reachable (s : ComponentState) : Prop :=
  ∃ ops : List Op, run ops initialState = s

def modelA0 : Model :=
  { id := "a", name := "Model A", family := none, size := "1GB", is_custom := false,
    downloaded := false, downloading := false }

def modelA1 : Model :=
  { modelA0 with downloaded := true }

def c1Ops : List Op :=
  [Op.refresh false (Except.ok [modelA0]),
   Op.download modelA0 (Except.ok ()) (Except.ok [modelA1])]

def c1State : ComponentState :=
  run c1Ops initialState

def modelX : Model :=
  { id := "x", name := "Model X", family := none, size := "2GB", is_custom := false,
    downloaded := false, downloading := false }

def c2Ops : List Op :=
  [Op.refresh false (Except.ok [modelX]),
   Op.download modelX (Except.ok ()) (Except.ok [])]

def c2State : ComponentState :=
  run c2Ops initialState

def modelY : Model :=
  { id := "y", name := "Model Y", family := none, size := "3GB", is_custom := false,
    downloaded := false, downloading := false }

def modelZ : Model :=
  { id := "z", name := "Model Z", family := some "LLM", size := "4GB", is_custom := false,
    downloaded := false, downloading := false }

def c3Ops : List Op :=
  [Op.refresh false (Except.ok [modelY, modelZ]),
   Op.download modelY (Except.ok ()) (Except.ok [modelZ])]

def c3State : ComponentState :=
  run c3Ops initialState

def c5WState : ComponentState :=
  { initialState with models := [modelA0], downloading := ["a"] }

def c6Prior : ComponentState :=
  { initialState with models := [{ modelA0 with id := "b", name := "Model B" }] }

def c8EmptyPathState : ComponentState :=
  { initialState with showAddModal := true, customName := "Custom" }

def c8FilledState : ComponentState :=
  { initialState with
      showAddModal := true
      customName := "Custom"
      customPath := "/models/custom" }

def modelDel : Model :=
  { id := "del", name := "Old Model", family := none, size := "5GB", is_custom := false,
    downloaded := true, downloading := false }

def c9BaseState : ComponentState :=
  { initialState with models := [modelDel] }

def c9StagedState : ComponentState :=
  { c9BaseState with modelToDelete := some modelDel }

theorem fetchModels_downloading (silent : Bool) (o : Except String (List Model))
    (s : ComponentState) : (fetchModels silent o s).downloading = s.downloading := by
  cases silent <;> cases o <;> rfl

theorem setAdd_of_not_mem (l : List String) (x : String) (h : x ∉ l) :
    setAdd l x = l ++ [x] := by
  unfold setAdd
  rw [if_neg h]

theorem setDelete_not_mem (l : List String) (x : String) : x ∉ setDelete l x := by
  unfold setDelete
  intro h
  have := List.of_mem_filter h
  simp at this

theorem setDelete_of_not_mem (l : List String) (x : String) (h : x ∉ l) :
    setDelete l x = l := by
  unfold setDelete
  apply List.filter_eq_self.mpr
  intro y hy
  simp
  intro e
  exact h (e ▸ hy)

theorem setDelete_setAdd_self (l : List String) (x : String) (h : x ∉ l) :
    setDelete (setAdd l x) x = l := by
  rw [setAdd_of_not_mem l x h]
  have h2 : setDelete (l ++ [x]) x = setDelete l x ++ setDelete [x] x := by
    unfold setDelete
    exact List.filter_append _ _
  have h3 : setDelete [x] x = [] := by
    unfold setDelete
    simp
  rw [h2, setDelete_of_not_mem l x h, h3, List.append_nil]

theorem mem_setAdd_of_mem {l : List String} {x y : String} (h : x ∈ l) :
    x ∈ setAdd l y := by
  unfold setAdd
  split
  · exact h
  · exact List.mem_append_left _ h

theorem mem_setDelete_of_mem {l : List String} {x y : String} (h : x ∈ l) (hxy : x ≠ y) :
    x ∈ setDelete l y := by
  unfold setDelete
  exact List.mem_filter.mpr ⟨h, by simp [hxy]⟩

theorem handleDownload_downloading_mem (modelId : String) (o : Except String Unit)
    (r : Except String (List Model)) (s : ComponentState) {id : String}
    (hmem : id ∈ s.downloading) (hnot : modelId ∉ s.downloading) :
    id ∈ (handleDownload modelId o r s).downloading := by
  cases o with
  | ok u =>
    show id ∈ (fetchModels true r _).downloading
    rw [fetchModels_downloading]
    exact mem_setAdd_of_mem hmem
  | error msg =>
    show id ∈ setDelete (setAdd s.downloading modelId) modelId
    have hne : id ≠ modelId := fun e => hnot (e ▸ hmem)
    exact mem_setDelete_of_mem (mem_setAdd_of_mem hmem) hne

theorem handleDelete_downloading (o : Except String Unit) (r : Except String (List Model))
    (s : ComponentState) : (handleDelete o r s).downloading = s.downloading := by
  unfold handleDelete
  cases h : s.modelToDelete with
  | none => rfl
  | some t =>
    cases o with
    | ok u =>
      show (fetchModels false r _).downloading = s.downloading
      rw [fetchModels_downloading]
    | error msg => rfl

theorem handleRegister_downloading (o : Except String Unit) (r : Except String (List Model))
    (s : ComponentState) : (handleRegister o r s).downloading = s.downloading := by
  unfold handleRegister
  split
  · rfl
  · cases o with
    | ok u =>
      show (fetchModels false r _).downloading = s.downloading
      rw [fetchModels_downloading]
    | error msg => rfl

theorem applyOp_downloading_mono (op : Op) (s : ComponentState) {id : String}
    (h : id ∈ s.downloading) : id ∈ (applyOp op s).downloading := by
  cases op with
  | refresh silent outcome =>
    show id ∈ (fetchModels silent outcome s).downloading
    rw [fetchModels_downloading]
    exact h
  | download m outcome refreshOutcome =>
    show id ∈ (clickDownload m outcome refreshOutcome s).downloading
    unfold clickDownload
    split
    case isTrue hgate =>
      have hnot : m.id ∉ s.downloading := by
        have hd := hgate.2.2
        unfold isDownloading at hd
        intro hmem
        simp [hmem] at hd
      exact handleDownload_downloading_mem m.id outcome refreshOutcome s h hnot
    case isFalse hf => exact h
  | stageDelete m =>
    show id ∈ (confirmDelete m s).downloading
    unfold confirmDelete
    split
    · exact h
    · exact h
  | unstageDelete => exact h
  | commitDelete outcome refreshOutcome =>
    show id ∈ (handleDelete outcome refreshOutcome s).downloading
    rw [handleDelete_downloading]
    exact h
  | openModal => exact h
  | closeModal => exact h
  | setName v =>
    show id ∈ (editName v s).downloading
    unfold editName
    split
    · exact h
    · exact h
  | setPath v =>
    show id ∈ (editPath v s).downloading
    unfold editPath
    split
    · exact h
    · exact h
  | setUrl v =>
    show id ∈ (editUrl v s).downloading
    unfold editUrl
    split
    · exact h
    · exact h
  | register outcome refreshOutcome =>
    show id ∈ (clickRegister outcome refreshOutcome s).downloading
    unfold clickRegister
    split
    · rw [handleRegister_downloading]
      exact h
    · exact h
  | clearError => exact h

/-- C1: the claim fails on the code. In the reachable state produced by the
end-to-end scenario — requestDownload of model a succeeded, so the overlay
holds exactly the id a, and the following refresh reported the model with
downloaded true and downloading false — the polling condition computed by
the code, hasActiveDownloads, is still true (the overlay is never emptied
on success, and the condition tests overlay non-emptiness), so the
reconciliation poller keeps running instead of stopping. -/
theorem c1_poll_condition_true_after_completion :
    Reachable c1State ∧
    c1State.downloading = ["a"] ∧
    c1State.models = [modelA1] ∧
    (∀ id ∈ c1State.downloading, ∃ m ∈ c1State.models,
      m.id = id ∧ m.downloaded = true ∧ m.downloading = false) ∧
    hasActiveDownloads c1State = true ∧ pollerScheduled c1State = true :=
  ⟨⟨c1Ops, rfl⟩, by decide, by decide, by decide, by decide, by decide⟩

/-- C2 counterexample: a reachable state (download of model x accepted,
then the immediate silent refresh returned an inventory no longer listing
x) in which no model in the Record Store has an effective downloading
state, yet the poller is scheduled: the claimed iff is false. -/
theorem c2_counterexample_overlay_id_absent_from_store :
    Reachable c2State ∧ pollerScheduled c2State = true ∧
    ¬ ∃ m ∈ c2State.models, (m.id ∈ c2State.downloading ∨ m.downloading = true) :=
  ⟨⟨c2Ops, rfl⟩, by decide, by decide⟩

/-- C2 (amended): in every state the repeating refresh is scheduled iff
some model in the Record Store reports downloading, or the Overlay is
nonempty — even when an Overlay id no longer appears in the store. -/
theorem c2_poller_scheduled_iff (s : ComponentState) :
    pollerScheduled s = true ↔
      ((∃ m ∈ s.models, m.downloading = true) ∨ s.downloading ≠ []) := by
  unfold pollerScheduled hasActiveDownloads
  simp [List.any_eq_true, List.length_pos]

theorem c2_poller_scheduled_iff_witness :
    pollerScheduled { initialState with downloading := ["w"] } = true :=
  (c2_poller_scheduled_iff { initialState with downloading := ["w"] }).mpr
    (Or.inr (by decide))

/-- C3 counterexample: a reachable state containing a stored model whose
union state (overlay membership or server flag) is false for every stored
model, while the polling trigger is nevertheless active — so the per-model
union formula is not what the polling trigger computes. -/
theorem c3_counterexample_trigger_not_per_model :
    Reachable c3State ∧ c3State.models = [modelZ] ∧
    isDownloading c3State modelZ = false ∧
    (∀ m ∈ c3State.models, isDownloading c3State m = false) ∧
    hasActiveDownloads c3State = true :=
  ⟨⟨c3Ops, rfl⟩, by decide, by decide, by decide, by decide⟩

/-- C3 (amended): the button UI computes for each model exactly the union
overlay-membership OR server flag, while the polling trigger instead uses
the per-model server flag together with overlay non-emptiness. -/
theorem c3_effective_state_formulas (s : ComponentState) (m : Model) :
    (isDownloading s m = true ↔ (m.id ∈ s.downloading ∨ m.downloading = true)) ∧
    (hasActiveDownloads s = true ↔
      ((∃ m2 ∈ s.models, m2.downloading = true) ∨ 0 < s.downloading.length)) := by
  constructor
  · unfold isDownloading
    simp
  · unfold hasActiveDownloads
    simp [List.any_eq_true]

theorem c3_effective_state_formulas_witness :
    isDownloading { initialState with downloading := ["w3"] } modelA0 = false ∨
    isDownloading { initialState with downloading := ["a"] } modelA0 = true :=
  Or.inr ((c3_effective_state_formulas { initialState with downloading := ["a"] } modelA0).1.mpr
    (Or.inl (by decide)))

/-- C4: when the remote download request fails, the alert is shown, the
inventory and error banner are untouched, the id is not in the overlay
afterwards, and — under the call-site guarantee that the id was not
already in the overlay — the overlay is restored exactly to its prior
contents. -/
theorem c4_download_failure_rollback :
    (∀ (s : ComponentState) (modelId msg : String) (r : Except String (List Model)),
      (handleDownload modelId (Except.error msg) r s).models = s.models ∧
      (handleDownload modelId (Except.error msg) r s).error = s.error ∧
      modelId ∉ (handleDownload modelId (Except.error msg) r s).downloading ∧
      (handleDownload modelId (Except.error msg) r s).events =
        s.events ++ [Event.downloadRequest modelId,
          Event.alertShown ("Failed to start download: " ++ msg)]) ∧
    (∀ (s : ComponentState) (modelId msg : String) (r : Except String (List Model)),
      modelId ∉ s.downloading →
      (handleDownload modelId (Except.error msg) r s).downloading = s.downloading) := by
  constructor
  · intro s modelId msg r
    refine ⟨rfl, rfl, setDelete_not_mem _ _, ?_⟩
    show (s.events ++ [Event.downloadRequest modelId]) ++
        [Event.alertShown ("Failed to start download: " ++ msg)] = _
    rw [List.append_assoc]
    rfl
  · intro s modelId msg r h
    show setDelete (setAdd s.downloading modelId) modelId = s.downloading
    exact setDelete_setAdd_self _ _ h

theorem c4_download_failure_rollback_witness :
    (handleDownload "b" (Except.error "boom") (Except.ok []) initialState).downloading
        = initialState.downloading ∧
    "b" ∉ (handleDownload "b" (Except.error "boom") (Except.ok []) initialState).downloading :=
  ⟨c4_download_failure_rollback.2 initialState "b" "boom" (Except.ok []) (by decide),
   (c4_download_failure_rollback.1 initialState "b" "boom" (Except.ok [])).2.2.1⟩

/-- C5: a click on the download button of a model whose id is already in
the overlay reaches the disabled gate and is suppressed: the state, in
particular the event trace, is unchanged, so no second remote
downloadModel request is issued. -/
theorem c5_duplicate_download_suppressed (s : ComponentState) (m : Model)
    (o : Except String Unit) (r : Except String (List Model))
    (h : m.id ∈ s.downloading) :
    clickDownload m o r s = s ∧ (clickDownload m o r s).events = s.events := by
  have hgate : ¬(m ∈ s.models ∧ m.downloaded = false ∧ isDownloading s m = false) := by
    rintro ⟨h1, h2, hd⟩
    unfold isDownloading at hd
    simp [h] at hd
  unfold clickDownload
  rw [if_neg hgate]
  exact ⟨rfl, rfl⟩

theorem c5_duplicate_download_suppressed_witness :
    clickDownload modelA0 (Except.ok ()) (Except.ok []) c5WState = c5WState :=
  (c5_duplicate_download_suppressed c5WState modelA0 (Except.ok ()) (Except.ok [])
    (by decide)).1

/-- C6: a successful refresh replaces the whole Record Store with the
fetched list, so any id absent from the response is absent from the store
afterwards, whatever the store held before. -/
theorem c6_refresh_replaces_store (s : ComponentState) (silent : Bool)
    (data : List Model) :
    (fetchModels silent (Except.ok data) s).models = data ∧
    (∀ id : String, (∀ m ∈ data, m.id ≠ id) →
      ∀ m ∈ (fetchModels silent (Except.ok data) s).models, m.id ≠ id) := by
  have h1 : (fetchModels silent (Except.ok data) s).models = data := by
    cases silent <;> rfl
  exact ⟨h1, fun id habs m hm => habs m (h1 ▸ hm)⟩

theorem c6_refresh_replaces_store_witness :
    (fetchModels true (Except.ok [modelA0]) c6Prior).models = [modelA0] ∧
    ∀ m ∈ (fetchModels true (Except.ok [modelA0]) c6Prior).models, m.id ≠ "b" :=
  ⟨(c6_refresh_replaces_store c6Prior true [modelA0]).1,
   (c6_refresh_replaces_store c6Prior true [modelA0]).2 "b" (by decide)⟩

/-- C7: a failed refresh records the error message in the visible error
state, leaves the Record Store and the overlay untouched, and leaves the
polling condition exactly as it was, so the loop is unaffected. -/
theorem c7_refresh_failure_keeps_inventory (s : ComponentState) (silent : Bool)
    (msg : String) :
    (fetchModels silent (Except.error msg) s).models = s.models ∧
    (fetchModels silent (Except.error msg) s).error = some msg ∧
    (fetchModels silent (Except.error msg) s).downloading = s.downloading ∧
    hasActiveDownloads (fetchModels silent (Except.error msg) s) = hasActiveDownloads s := by
  cases silent <;> exact ⟨rfl, rfl, rfl, rfl⟩

/-- C8: registration with an empty name or empty path returns before any
request is issued and before any state change, so the dialog stays as it
was and no registerModel event is recorded; on remote failure the dialog
stays open, the entered values are preserved, and the error is shown. -/
theorem c8_register_validation_and_failure :
    (∀ (s : ComponentState) (o : Except String Unit) (r : Except String (List Model)),
      (s.customName = "" ∨ s.customPath = "") → handleRegister o r s = s) ∧
    (∀ (s : ComponentState) (msg : String) (r : Except String (List Model)),
      s.customName ≠ "" → s.customPath ≠ "" →
      (handleRegister (Except.error msg) r s).showAddModal = s.showAddModal ∧
      (handleRegister (Except.error msg) r s).customName = s.customName ∧
      (handleRegister (Except.error msg) r s).customPath = s.customPath ∧
      (handleRegister (Except.error msg) r s).customUrl = s.customUrl ∧
      (handleRegister (Except.error msg) r s).error = some msg ∧
      (handleRegister (Except.error msg) r s).models = s.models) := by
  constructor
  · intro s o r h
    unfold handleRegister
    rw [if_pos h]
  · intro s msg r h1 h2
    have hneg : ¬(s.customName = "" ∨ s.customPath = "") := by
      intro hor
      cases hor with
      | inl h => exact h1 h
      | inr h => exact h2 h
    unfold handleRegister
    rw [if_neg hneg]
    exact ⟨rfl, rfl, rfl, rfl, rfl, rfl⟩

theorem c8_register_validation_and_failure_witness :
    handleRegister (Except.ok ()) (Except.ok []) c8EmptyPathState = c8EmptyPathState ∧
    (handleRegister (Except.error "reg failed") (Except.ok []) c8FilledState).showAddModal
      = true :=
  ⟨c8_register_validation_and_failure.1 c8EmptyPathState (Except.ok ()) (Except.ok [])
      (Or.inr rfl),
   Eq.trans
     (c8_register_validation_and_failure.2 c8FilledState "reg failed" (Except.ok [])
       (by decide) (by decide)).1 rfl⟩

/-- C9: staging a model for deletion changes only the staged target;
committing with a failing remote delete leaves the target staged with the
error shown and the inventory untouched; committing with a successful
remote delete issues the delete request, runs the blocking non-silent
refresh, and clears the staged target. -/
theorem c9_two_phase_delete :
    (∀ (s : ComponentState) (m : Model), m ∈ s.models → m.downloaded = true →
      confirmDelete m s = { s with modelToDelete := some m }) ∧
    (∀ (s : ComponentState) (t : Model) (msg : String) (r : Except String (List Model)),
      s.modelToDelete = some t →
      (handleDelete (Except.error msg) r s).modelToDelete = some t ∧
      (handleDelete (Except.error msg) r s).error = some msg ∧
      (handleDelete (Except.error msg) r s).models = s.models ∧
      (handleDelete (Except.error msg) r s).events =
        s.events ++ [Event.deleteRequest t.id]) ∧
    (∀ (s : ComponentState) (t : Model) (data : List Model),
      s.modelToDelete = some t →
      (handleDelete (Except.ok ()) (Except.ok data) s).modelToDelete = none ∧
      (handleDelete (Except.ok ()) (Except.ok data) s).models = data ∧
      (handleDelete (Except.ok ()) (Except.ok data) s).events =
        s.events ++ [Event.deleteRequest t.id, Event.listRequest false]) := by
  refine ⟨?_, ?_, ?_⟩
  · intro s m hm hd
    unfold confirmDelete
    rw [if_pos ⟨hm, hd⟩]
  · intro s t msg r h
    unfold handleDelete
    rw [h]
    exact ⟨rfl, rfl, rfl, rfl⟩
  · intro s t data h
    unfold handleDelete
    rw [h]
    refine ⟨rfl, rfl, ?_⟩
    show (s.events ++ [Event.deleteRequest t.id]) ++ [Event.listRequest false] = _
    rw [List.append_assoc]
    rfl

theorem c9_two_phase_delete_witness :
    confirmDelete modelDel c9BaseState = { c9BaseState with modelToDelete := some modelDel } ∧
    (handleDelete (Except.error "denied") (Except.ok []) c9StagedState).modelToDelete
      = some modelDel ∧
    (handleDelete (Except.ok ()) (Except.ok []) c9StagedState).modelToDelete = none :=
  ⟨c9_two_phase_delete.1 c9BaseState modelDel (by decide) rfl,
   (c9_two_phase_delete.2.1 c9StagedState modelDel "denied" (Except.ok []) rfl).1,
   (c9_two_phase_delete.2.2 c9StagedState modelDel [] rfl).1⟩

/-- C10: once an id is in the overlay, no sequence of interactions —
refreshes with any outcome, further gated download clicks, deletions,
registrations, or modal edits — ever removes it: the rollback branch is
unreachable for an id already in the overlay because the download button
for it is disabled. -/
theorem c10_overlay_id_persists (id : String) (s : ComponentState) (ops : List Op)
    (h : id ∈ s.downloading) : id ∈ (run ops s).downloading := by
  induction ops generalizing s with
  | nil => exact h
  | cons op rest ih => exact ih (applyOp op s) (applyOp_downloading_mono op s h)

theorem c10_overlay_id_persists_witness :
    "a" ∈ (run [Op.refresh true (Except.ok []),
      Op.commitDelete (Except.ok ()) (Except.ok [])]
      { initialState with downloading := ["a"] }).downloading :=
  c10_overlay_id_persists "a" { initialState with downloading := ["a"] }
    [Op.refresh true (Except.ok []), Op.commitDelete (Except.ok ()) (Except.ok [])]
    (by decide)

end SiliconStudio
